import Mathlib

/-!
Verification of the signal detection engine of `signal_bot_15m.py`.

The source operates on pandas DataFrames of OHLCV candles with float
entries.  The embedding models prices and volumes as exact rationals
(`ℚ`), a candle series as a `List Candle` (oldest first, matching the
DataFrame row order), and float NaN / division-by-zero behaviour of the
RSI computation explicitly with `Option ℚ` (`none` models NaN).  The
timestamp column is dropped: the source only uses it to format the
notification text, never in the detection logic.
-/

set_option autoImplicit false

/-- One OHLCV candle (one row of the fetched DataFrame).  `open_` is the
source's `open` column (a Lean keyword). -/
structure Candle where
  open_ : ℚ
  high : ℚ
  low : ℚ
  close : ℚ
  volume : ℚ
deriving DecidableEq

instance : Inhabited Candle := ⟨⟨0, 0, 0, 0, 0⟩⟩

/- ========== CONFIG (constants of the source) ========== -/

def VOLUME_MULTIPLIER : ℚ := 0.9
def RSI_PERIOD : ℕ := 14
def RSI_OVERSOLD : ℚ := 40
def RSI_OVERBOUGHT : ℚ := 60
def EMA_FAST : ℕ := 20
def EMA_SLOW : ℕ := 50

/- ========== CANDLE PATTERN LOGIC ========== -/

/-- `is_hammer_candle` from the source: body `= abs(cl - o)`; returns
`False` when the body is zero, otherwise requires a long lower shadow
(`lower > body * 1.8`) and a small upper shadow (`upper < body * 0.6`). -/
def is_hammer_candle (c : Candle) : Bool :=
  let body := |c.close - c.open_|
  if body = 0 then false
  else
    let lower := min c.open_ c.close - c.low
    let upper := c.high - max c.open_ c.close
    decide (lower > body * 1.8) && decide (upper < body * 0.6)

/-- `is_shooting_star_candle` from the source: mirror of the hammer test
(`upper > body * 1.8` and `lower < body * 0.6`). -/
def is_shooting_star_candle (c : Candle) : Bool :=
  let body := |c.close - c.open_|
  if body = 0 then false
  else
    let upper := c.high - max c.open_ c.close
    let lower := min c.open_ c.close - c.low
    decide (upper > body * 1.8) && decide (lower < body * 0.6)

/- ========== TREND CONFIRMATION ========== -/

/-- `trend_confirmation` from the source.  The Python reads `closes[0]`
and `closes[-1]`, which raises on an empty window, so the embedding
returns `none` exactly there; every call site passes 5 candles.  The
direction is the Python string argument: any string other than `"down"`
takes the `else` (up) branch, as in the source. -/
def trend_confirmation (candles : List Candle) (direction : String)
    (required_count : ℕ) : Option Bool :=
  match candles.head?, candles.getLast? with
  | some cfirst, some clast =>
    if direction = "down" then
      let count_bear := (candles.filter (fun c => c.close < c.open_)).length
      some (decide (count_bear ≥ required_count) && decide (clast.close < cfirst.close))
    else
      let count_bull := (candles.filter (fun c => c.close > c.open_)).length
      some (decide (count_bull ≥ required_count) && decide (clast.close > cfirst.close))
  | _, _ => none

/- ========== INDICATORS ========== -/

/-- The pandas `series.diff()` column without its leading NaN: entry `j`
is `s[j+1] - s[j]`. -/
def deltas (s : List ℚ) : List ℚ :=
  (s.zip s.tail).map (fun p => p.2 - p.1)

/-- The rolling mean `up.rolling(period, min_periods=period).mean()` of
`compute_rsi` at index `i` of the price series: the mean of the clipped
positive deltas over the window of series indices `i-period+1 .. i`.
Pandas yields NaN (here `none`) until the window holds `period`
non-NaN deltas, i.e. for every `i < period`, and outside the series. -/
def gain_avg (s : List ℚ) (period i : ℕ) : Option ℚ :=
  if period ≤ i ∧ i < s.length then
    some (((((deltas s).drop (i - period)).take period).map
      (fun d => max d 0)).sum / (period : ℚ))
  else none

/-- As `gain_avg`, but for `down = -delta.clip(upper=0)`. -/
def loss_avg (s : List ℚ) (period i : ℕ) : Option ℚ :=
  if period ≤ i ∧ i < s.length then
    some (((((deltas s).drop (i - period)).take period).map
      (fun d => max (-d) 0)).sum / (period : ℚ))
  else none

/-- Value at index `i` of the series produced by `compute_rsi` in the
source.  Float semantics of `rs = ma_up / ma_down; rsi = 100 - 100/(1+rs)`
are modelled exactly: when `ma_down = 0` and `ma_up > 0`, `rs` is `+inf`
and the RSI collapses to `100`; when both are `0`, `rs` is NaN (`0/0`)
and so is the RSI (`none`); before warm-up the rolling means are NaN. -/
def compute_rsi (s : List ℚ) (period i : ℕ) : Option ℚ :=
  match gain_avg s period i, loss_avg s period i with
  | some u, some d =>
    if d = 0 then (if u = 0 then none else some 100)
    else some (100 - 100 / (1 + u / d))
  | _, _ => none

/-- `compute_ema` from the source: `series.ewm(span=period, adjust=False)
.mean()`, i.e. `α = 2/(period+1)`, `ema[0] = s[0]`,
`ema[i] = α*s[i] + (1-α)*ema[i-1]`. -/
def compute_ema (s : List ℚ) (period : ℕ) : List ℚ :=
  let α : ℚ := 2 / ((period : ℚ) + 1)
  match s with
  | [] => []
  | x :: xs => xs.scanl (fun prev y => α * y + (1 - α) * prev) x

/- ========== ANALYSIS PIPELINE (analyze_pair) ========== -/

/-- Pattern tag of an emitted signal. -/
inductive PatternType
  | HAMMER
  | SHOOTING_STAR
deriving DecidableEq

/-- Trade side of an emitted signal. -/
inductive TradeDirection
  | LONG
  | SHORT
deriving DecidableEq

/-- One emitted signal tuple
`(typ, direction, price, meta)` of `analyze_pair`; the formatted time
string is dropped, the `meta` dict is inlined.  `rsi` keeps the `Option`
of the indicator value (it is always `some` on any emitted signal). -/
structure Signal where
  pattern : PatternType
  direction : TradeDirection
  price : ℚ
  rsi : Option ℚ
  avg_vol : ℚ
  last_vol : ℚ
deriving DecidableEq

/-- `last6.iloc[-1].to_dict()`: the last row of the fetched frame.  Only
used under the guard `6 ≤ df.length`, where the `getD default` branch is
unreachable. -/
def pattern_candle (df : List Candle) : Candle :=
  (df.getLast?).getD default

/-- `last6.iloc[0:5]`: the first five of the last six rows. -/
def trend_candles (df : List Candle) : List Candle :=
  (df.drop (df.length - 6)).take 5

/-- `last_vol = pattern_candle["volume"]`. -/
def last_vol (df : List Candle) : ℚ :=
  (pattern_candle df).volume

/-- `series_mean l` is pandas `.mean()` on a column (sum over count). -/
def series_mean (l : List ℚ) : ℚ :=
  l.sum / (l.length : ℚ)

/-- `avg_vol = df["volume"][-20:].mean() if len(df) >= 20 else
df["volume"].mean()`. -/
def avg_vol (df : List Candle) : ℚ :=
  if 20 ≤ df.length then
    series_mean ((df.map Candle.volume).drop (df.length - 20))
  else
    series_mean (df.map Candle.volume)

/-- `vol_ok = (avg_vol is not None) and (last_vol >= avg_vol *
VOLUME_MULTIPLIER)`; a pandas column mean is never `None`, so only the
comparison remains. -/
def vol_ok (df : List Candle) : Bool :=
  decide (last_vol df ≥ avg_vol df * VOLUME_MULTIPLIER)

/-- `df["ema_fast"].iloc[-2]`: the fast EMA at the candle immediately
before the pattern candle. -/
def ema_fast_prev (df : List Candle) : Option ℚ :=
  (compute_ema (df.map Candle.close) EMA_FAST)[df.length - 2]?

/-- `df["ema_slow"].iloc[-2]`. -/
def ema_slow_prev (df : List Candle) : Option ℚ :=
  (compute_ema (df.map Candle.close) EMA_SLOW)[df.length - 2]?

/-- `ema_ok = ema_fast < ema_slow` for the hammer branch.  Both values
exist whenever `2 ≤ df.length`, so the `false` fallback is unreachable
at the call site. -/
def ema_ok_hammer (df : List Candle) : Bool :=
  match ema_fast_prev df, ema_slow_prev df with
  | some f, some sl => decide (f < sl)
  | _, _ => false

/-- `ema_ok = ema_fast > ema_slow` for the shooting-star branch. -/
def ema_ok_star (df : List Candle) : Bool :=
  match ema_fast_prev df, ema_slow_prev df with
  | some f, some sl => decide (f > sl)
  | _, _ => false

/-- `rsi_val = df["rsi"].iloc[-2]`. -/
def rsi_val (df : List Candle) : Option ℚ :=
  compute_rsi (df.map Candle.close) RSI_PERIOD (df.length - 2)

/-- `rsi_ok = (rsi_val <= RSI_OVERSOLD)`: a float comparison against NaN
is `False`, hence the `none` branch. -/
def rsi_ok_hammer (df : List Candle) : Bool :=
  match rsi_val df with
  | some v => decide (v ≤ RSI_OVERSOLD)
  | none => false

/-- `rsi_ok = (rsi_val >= RSI_OVERBOUGHT)`. -/
def rsi_ok_star (df : List Candle) : Bool :=
  match rsi_val df with
  | some v => decide (v ≥ RSI_OVERBOUGHT)
  | none => false

/-- `trend_ok = trend_confirmation(trend_candles, "down", 3)`; the
window always has 5 rows at the call site, so `getD false` never fires. -/
def trend_ok_down (df : List Candle) : Bool :=
  (trend_confirmation (trend_candles df) "down" 3).getD false

/-- `trend_ok = trend_confirmation(trend_candles, "up", 3)`. -/
def trend_ok_up (df : List Candle) : Bool :=
  (trend_confirmation (trend_candles df) "up" 3).getD false

/-- `analyze_pair` from the source.  The argument models the outcome of
`fetch_ohlcv_df`: `none` when the fetch raised (the `except` branch
returns `[]`), `some df` with the fetched rows otherwise.  Then: fewer
than 6 rows returns `[]`; otherwise the hammer branch and the
shooting-star branch each append at most one signal. -/
def analyze_pair (fetched : Option (List Candle)) : List Signal :=
  match fetched with
  | none => []
  | some df =>
    if df.length < 6 then []
    else
      (if is_hammer_candle (pattern_candle df) then
        (if trend_ok_down df && ema_ok_hammer df && vol_ok df && rsi_ok_hammer df then
          [⟨PatternType.HAMMER, TradeDirection.LONG, (pattern_candle df).close,
            rsi_val df, avg_vol df, last_vol df⟩]
        else [])
      else []) ++
      (if is_shooting_star_candle (pattern_candle df) then
        (if trend_ok_up df && ema_ok_star df && vol_ok df && rsi_ok_star df then
          [⟨PatternType.SHOOTING_STAR, TradeDirection.SHORT, (pattern_candle df).close,
            rsi_val df, avg_vol df, last_vol df⟩]
        else [])
      else [])

/- ========== SCHEDULER ========== -/

/-- `seconds_to_next_15min` from the source: `rem = now % 900`; returns
`900 - rem` unless `rem == 0`, then `0`. -/
def seconds_to_next_15min (now : ℕ) : ℕ :=
  let rem := now % (15 * 60)
  if rem ≠ 0 then 15 * 60 - rem else 0

/-- End-of-cycle sleep of `main`: `to_sleep = seconds_to_next_15min()`,
replaced by a full interval when `0`, then `time.sleep(to_sleep + 1)`
(one settle second). -/
def cycle_sleep (now : ℕ) : ℕ :=
  let to_sleep := seconds_to_next_15min now
  (if to_sleep = 0 then 15 * 60 else to_sleep) + 1

/- ========== SPEC-SIDE DEFINITIONS (refinement targets) ========== -/

/-- Modelled from the spec's words for the volume filter's reference
window: "average volume over the trailing reference window (trailing 20
candles if available, else the full available history)" — the volume
column of that window. -/
def ref_window_spec (df : List Candle) : List ℚ :=
  if 20 ≤ df.length then (df.map Candle.volume).drop (df.length - 20)
  else df.map Candle.volume

/- ========== HELPER LEMMAS ========== -/

lemma getLast?_drop_of_lt {α : Type} (l : List α) (k : ℕ) (hk : k < l.length) :
    (l.drop k).getLast? = l.getLast? := by
  have hne : l.drop k ≠ [] := by
    intro he
    have hlen := congrArg List.length he
    simp only [List.length_drop, List.length_nil] at hlen
    omega
  conv_rhs => rw [← List.take_append_drop k l]
  rw [List.getLast?_append_of_ne_nil _ hne]

lemma trend_candles_length (df : List Candle) (h : 6 ≤ df.length) :
    (trend_candles df).length = 5 := by
  simp only [trend_candles, List.length_take, List.length_drop]
  omega

lemma avg_vol_eq_ref_window (df : List Candle) :
    avg_vol df = (ref_window_spec df).sum / ((ref_window_spec df).length : ℚ) := by
  by_cases h20 : 20 ≤ df.length <;>
    simp [avg_vol, ref_window_spec, series_mean, h20]

lemma sum_map_clip_nonneg (l : List ℚ) (f : ℚ → ℚ) :
    0 ≤ (l.map (fun d => max (f d) 0)).sum := by
  apply List.sum_nonneg
  intro x hx
  obtain ⟨d, _, hd⟩ := List.mem_map.mp hx
  rw [← hd]
  exact le_max_right _ _

lemma gain_avg_nonneg (s : List ℚ) (period i : ℕ) (u : ℚ)
    (h : gain_avg s period i = some u) : 0 ≤ u := by
  unfold gain_avg at h
  split at h
  · obtain rfl : _ = u := Option.some.inj h
    exact div_nonneg (sum_map_clip_nonneg _ (fun d => d)) (by positivity)
  · exact absurd h (by simp)

lemma loss_avg_nonneg (s : List ℚ) (period i : ℕ) (d : ℚ)
    (h : loss_avg s period i = some d) : 0 ≤ d := by
  unfold loss_avg at h
  split at h
  · obtain rfl : _ = d := Option.some.inj h
    exact div_nonneg (sum_map_clip_nonneg _ (fun x => -x)) (by positivity)
  · exact absurd h (by simp)

lemma hammer_star_exclusive_aux (c : Candle) :
    ¬(is_hammer_candle c = true ∧ is_shooting_star_candle c = true) := by
  rintro ⟨h1, h2⟩
  by_cases hb : |c.close - c.open_| = 0
  · simp [is_hammer_candle, hb] at h1
  · have hpos : 0 < |c.close - c.open_| := lt_of_le_of_ne (abs_nonneg _) (Ne.symm hb)
    simp only [is_hammer_candle, is_shooting_star_candle, if_neg hb,
      Bool.and_eq_true, decide_eq_true_eq] at h1 h2
    nlinarith [h1.1, h1.2, h2.1, h2.2]

lemma trend_confirmation_isSome (candles : List Candle) (hne : candles ≠ [])
    (dir : String) (r : ℕ) : ∃ b, trend_confirmation candles dir r = some b := by
  rcases candles with _ | ⟨a, t⟩
  · exact absurd rfl hne
  · unfold trend_confirmation
    rw [List.getLast?_eq_getLast_of_ne_nil hne]
    simp only [List.head?_cons]
    split <;> exact ⟨_, rfl⟩

lemma trend_ok_down_iff (df : List Candle) (h : 6 ≤ df.length) :
    trend_ok_down df = true ↔
      trend_confirmation (trend_candles df) "down" 3 = some true := by
  have h5 := trend_candles_length df h
  obtain ⟨b, hb⟩ := trend_confirmation_isSome (trend_candles df)
    (by intro he; rw [he] at h5; simp at h5) "down" 3
  rw [trend_ok_down, hb]
  cases b <;> simp

lemma trend_ok_up_iff (df : List Candle) (h : 6 ≤ df.length) :
    trend_ok_up df = true ↔
      trend_confirmation (trend_candles df) "up" 3 = some true := by
  have h5 := trend_candles_length df h
  obtain ⟨b, hb⟩ := trend_confirmation_isSome (trend_candles df)
    (by intro he; rw [he] at h5; simp at h5) "up" 3
  rw [trend_ok_up, hb]
  cases b <;> simp

lemma ema_ok_hammer_iff (df : List Candle) :
    ema_ok_hammer df = true ↔
      ∃ f sl, ema_fast_prev df = some f ∧ ema_slow_prev df = some sl ∧ f < sl := by
  unfold ema_ok_hammer
  rcases hf : ema_fast_prev df with _ | f <;>
    rcases hs : ema_slow_prev df with _ | sl <;> simp

lemma ema_ok_star_iff (df : List Candle) :
    ema_ok_star df = true ↔
      ∃ f sl, ema_fast_prev df = some f ∧ ema_slow_prev df = some sl ∧ f > sl := by
  unfold ema_ok_star
  rcases hf : ema_fast_prev df with _ | f <;>
    rcases hs : ema_slow_prev df with _ | sl <;> simp

lemma rsi_ok_hammer_iff (df : List Candle) :
    rsi_ok_hammer df = true ↔ ∃ v, rsi_val df = some v ∧ v ≤ 40 := by
  unfold rsi_ok_hammer
  rcases hr : rsi_val df with _ | v <;> simp [RSI_OVERSOLD]

lemma rsi_ok_star_iff (df : List Candle) :
    rsi_ok_star df = true ↔ ∃ v, rsi_val df = some v ∧ v ≥ 60 := by
  unfold rsi_ok_star
  rcases hr : rsi_val df with _ | v <;> simp [RSI_OVERBOUGHT]

lemma vol_ok_iff (df : List Candle) :
    vol_ok df = true ↔ (pattern_candle df).volume ≥ 0.9 * avg_vol df := by
  rw [vol_ok, last_vol]
  simp [VOLUME_MULTIPLIER, decide_eq_true_eq, mul_comm]

lemma analyze_pair_eq (df : List Candle) (h : ¬df.length < 6) :
    analyze_pair (some df) =
      (if is_hammer_candle (pattern_candle df) = true ∧
          (trend_ok_down df && ema_ok_hammer df && vol_ok df && rsi_ok_hammer df) = true then
        [⟨PatternType.HAMMER, TradeDirection.LONG, (pattern_candle df).close,
          rsi_val df, avg_vol df, last_vol df⟩]
      else []) ++
      (if is_shooting_star_candle (pattern_candle df) = true ∧
          (trend_ok_up df && ema_ok_star df && vol_ok df && rsi_ok_star df) = true then
        [⟨PatternType.SHOOTING_STAR, TradeDirection.SHORT, (pattern_candle df).close,
          rsi_val df, avg_vol df, last_vol df⟩]
      else []) := by
  unfold analyze_pair
  dsimp only
  rw [if_neg h]
  congr 1
  · by_cases h1 : is_hammer_candle (pattern_candle df) = true <;>
      by_cases h2 : (trend_ok_down df && ema_ok_hammer df && vol_ok df &&
        rsi_ok_hammer df) = true <;>
      simp [h1, h2]
  · by_cases h1 : is_shooting_star_candle (pattern_candle df) = true <;>
      by_cases h2 : (trend_ok_up df && ema_ok_star df && vol_ok df &&
        rsi_ok_star df) = true <;>
      simp [h1, h2]

/- ========== CLAIM THEOREMS ========== -/

/-- C1: for every fetched series of length at least 6, `analyze_pair`
emits a HAMMER/LONG signal at the pattern candle's close price iff the
pattern candle matches the hammer shape, down-trend confirmation
succeeds on the 5 preceding candles, the pattern candle's volume is at
least 0.9 times the trailing average volume, the fast EMA at the candle
immediately before the pattern candle is strictly below the slow EMA
there, and the RSI there is at most 40; SHOOTING_STAR/SHORT is the
mirror (up-trend, fast EMA above slow, RSI at least 60); if any
sub-condition fails, no signal of that pattern type is emitted. -/
theorem analyze_pair_signal_iff (df : List Candle) (h : 6 ≤ df.length) :
    ((∃ s ∈ analyze_pair (some df), s.pattern = PatternType.HAMMER) ↔
      (is_hammer_candle (pattern_candle df) = true ∧
       trend_confirmation (trend_candles df) "down" 3 = some true ∧
       (pattern_candle df).volume ≥ 0.9 * avg_vol df ∧
       (∃ f sl, ema_fast_prev df = some f ∧ ema_slow_prev df = some sl ∧ f < sl) ∧
       (∃ v, rsi_val df = some v ∧ v ≤ 40))) ∧
    (∀ s ∈ analyze_pair (some df), s.pattern = PatternType.HAMMER →
       s.direction = TradeDirection.LONG ∧ s.price = (pattern_candle df).close) ∧
    ((∃ s ∈ analyze_pair (some df), s.pattern = PatternType.SHOOTING_STAR) ↔
      (is_shooting_star_candle (pattern_candle df) = true ∧
       trend_confirmation (trend_candles df) "up" 3 = some true ∧
       (pattern_candle df).volume ≥ 0.9 * avg_vol df ∧
       (∃ f sl, ema_fast_prev df = some f ∧ ema_slow_prev df = some sl ∧ f > sl) ∧
       (∃ v, rsi_val df = some v ∧ v ≥ 60))) ∧
    (∀ s ∈ analyze_pair (some df), s.pattern = PatternType.SHOOTING_STAR →
       s.direction = TradeDirection.SHORT ∧ s.price = (pattern_candle df).close) := by
  have hne : ¬df.length < 6 := by omega
  have hL := analyze_pair_eq df hne
  refine ⟨?_, ?_, ?_, ?_⟩
  · constructor
    · rintro ⟨s, hs, hp⟩
      rw [hL] at hs
      rcases List.mem_append.mp hs with hm | hm
      · by_cases hc : is_hammer_candle (pattern_candle df) = true ∧
            (trend_ok_down df && ema_ok_hammer df && vol_ok df &&
              rsi_ok_hammer df) = true
        · obtain ⟨hsh, hb⟩ := hc
          rw [Bool.and_eq_true, Bool.and_eq_true, Bool.and_eq_true] at hb
          obtain ⟨⟨⟨ht, he⟩, hv⟩, hr⟩ := hb
          exact ⟨hsh, (trend_ok_down_iff df h).mp ht, (vol_ok_iff df).mp hv,
            (ema_ok_hammer_iff df).mp he, (rsi_ok_hammer_iff df).mp hr⟩
        · rw [if_neg hc] at hm; cases hm
      · split at hm
        · rw [List.mem_singleton] at hm; subst hm; simp at hp
        · cases hm
    · rintro ⟨h1, h2, h3, h4, h5⟩
      have hb : (trend_ok_down df && ema_ok_hammer df && vol_ok df &&
          rsi_ok_hammer df) = true := by
        rw [Bool.and_eq_true, Bool.and_eq_true, Bool.and_eq_true]
        exact ⟨⟨⟨(trend_ok_down_iff df h).mpr h2, (ema_ok_hammer_iff df).mpr h4⟩,
          (vol_ok_iff df).mpr h3⟩, (rsi_ok_hammer_iff df).mpr h5⟩
      refine ⟨⟨PatternType.HAMMER, TradeDirection.LONG, (pattern_candle df).close,
        rsi_val df, avg_vol df, last_vol df⟩, ?_, rfl⟩
      rw [hL]
      exact List.mem_append_left _ (by rw [if_pos ⟨h1, hb⟩]; exact List.mem_singleton_self _)
  · intro s hs hp
    rw [hL] at hs
    rcases List.mem_append.mp hs with hm | hm <;> split at hm <;>
      first
        | (rw [List.mem_singleton] at hm; subst hm; first | exact ⟨rfl, rfl⟩ | simp at hp)
        | cases hm
  · constructor
    · rintro ⟨s, hs, hp⟩
      rw [hL] at hs
      rcases List.mem_append.mp hs with hm | hm
      · split at hm
        · rw [List.mem_singleton] at hm; subst hm; simp at hp
        · cases hm
      · by_cases hc : is_shooting_star_candle (pattern_candle df) = true ∧
            (trend_ok_up df && ema_ok_star df && vol_ok df &&
              rsi_ok_star df) = true
        · obtain ⟨hsh, hb⟩ := hc
          rw [Bool.and_eq_true, Bool.and_eq_true, Bool.and_eq_true] at hb
          obtain ⟨⟨⟨ht, he⟩, hv⟩, hr⟩ := hb
          exact ⟨hsh, (trend_ok_up_iff df h).mp ht, (vol_ok_iff df).mp hv,
            (ema_ok_star_iff df).mp he, (rsi_ok_star_iff df).mp hr⟩
        · rw [if_neg hc] at hm; cases hm
    · rintro ⟨h1, h2, h3, h4, h5⟩
      have hb : (trend_ok_up df && ema_ok_star df && vol_ok df &&
          rsi_ok_star df) = true := by
        rw [Bool.and_eq_true, Bool.and_eq_true, Bool.and_eq_true]
        exact ⟨⟨⟨(trend_ok_up_iff df h).mpr h2, (ema_ok_star_iff df).mpr h4⟩,
          (vol_ok_iff df).mpr h3⟩, (rsi_ok_star_iff df).mpr h5⟩
      refine ⟨⟨PatternType.SHOOTING_STAR, TradeDirection.SHORT, (pattern_candle df).close,
        rsi_val df, avg_vol df, last_vol df⟩, ?_, rfl⟩
      rw [hL]
      exact List.mem_append_right _ (by rw [if_pos ⟨h1, hb⟩]; exact List.mem_singleton_self _)
  · intro s hs hp
    rw [hL] at hs
    rcases List.mem_append.mp hs with hm | hm <;> split at hm <;>
      first
        | (rw [List.mem_singleton] at hm; subst hm; first | exact ⟨rfl, rfl⟩ | simp at hp)
        | cases hm

/-- Witness for C1: the instantiated conclusion at a concrete 6-candle
series (a flat series, on which no condition holds and no signal is
emitted, so both iffs have both sides false). -/
theorem analyze_pair_signal_iff_witness :
    ((∃ s ∈ analyze_pair (some (List.replicate 6 (⟨1, 1, 1, 1, 1⟩ : Candle))),
        s.pattern = PatternType.HAMMER) ↔
      (is_hammer_candle (pattern_candle (List.replicate 6 (⟨1, 1, 1, 1, 1⟩ : Candle))) = true ∧
       trend_confirmation (trend_candles (List.replicate 6 (⟨1, 1, 1, 1, 1⟩ : Candle)))
         "down" 3 = some true ∧
       (pattern_candle (List.replicate 6 (⟨1, 1, 1, 1, 1⟩ : Candle))).volume ≥
         0.9 * avg_vol (List.replicate 6 (⟨1, 1, 1, 1, 1⟩ : Candle)) ∧
       (∃ f sl, ema_fast_prev (List.replicate 6 (⟨1, 1, 1, 1, 1⟩ : Candle)) = some f ∧
         ema_slow_prev (List.replicate 6 (⟨1, 1, 1, 1, 1⟩ : Candle)) = some sl ∧ f < sl) ∧
       (∃ v, rsi_val (List.replicate 6 (⟨1, 1, 1, 1, 1⟩ : Candle)) = some v ∧ v ≤ 40))) ∧
    (∀ s ∈ analyze_pair (some (List.replicate 6 (⟨1, 1, 1, 1, 1⟩ : Candle))),
       s.pattern = PatternType.HAMMER →
       s.direction = TradeDirection.LONG ∧
       s.price = (pattern_candle (List.replicate 6 (⟨1, 1, 1, 1, 1⟩ : Candle))).close) ∧
    ((∃ s ∈ analyze_pair (some (List.replicate 6 (⟨1, 1, 1, 1, 1⟩ : Candle))),
        s.pattern = PatternType.SHOOTING_STAR) ↔
      (is_shooting_star_candle
         (pattern_candle (List.replicate 6 (⟨1, 1, 1, 1, 1⟩ : Candle))) = true ∧
       trend_confirmation (trend_candles (List.replicate 6 (⟨1, 1, 1, 1, 1⟩ : Candle)))
         "up" 3 = some true ∧
       (pattern_candle (List.replicate 6 (⟨1, 1, 1, 1, 1⟩ : Candle))).volume ≥
         0.9 * avg_vol (List.replicate 6 (⟨1, 1, 1, 1, 1⟩ : Candle)) ∧
       (∃ f sl, ema_fast_prev (List.replicate 6 (⟨1, 1, 1, 1, 1⟩ : Candle)) = some f ∧
         ema_slow_prev (List.replicate 6 (⟨1, 1, 1, 1, 1⟩ : Candle)) = some sl ∧ f > sl) ∧
       (∃ v, rsi_val (List.replicate 6 (⟨1, 1, 1, 1, 1⟩ : Candle)) = some v ∧ v ≥ 60))) ∧
    (∀ s ∈ analyze_pair (some (List.replicate 6 (⟨1, 1, 1, 1, 1⟩ : Candle))),
       s.pattern = PatternType.SHOOTING_STAR →
       s.direction = TradeDirection.SHORT ∧
       s.price = (pattern_candle (List.replicate 6 (⟨1, 1, 1, 1, 1⟩ : Candle))).close) :=
  analyze_pair_signal_iff (List.replicate 6 (⟨1, 1, 1, 1, 1⟩ : Candle)) (by decide)

/-- C5: for every candle satisfying the candle invariant, the hammer
classifier returns true iff the body `|close − open|` is nonzero, the
lower shadow `min(open,close) − low` exceeds `1.8·body`, and the upper
shadow `high − max(open,close)` is below `0.6·body`; the shooting-star
classifier is the exact mirror; and any candle with zero body matches
neither pattern. -/
theorem pattern_shape_spec (c : Candle)
    (hhigh : max c.open_ c.close ≤ c.high) (hlow : c.low ≤ min c.open_ c.close) :
    (is_hammer_candle c = true ↔
      |c.close - c.open_| ≠ 0 ∧
      min c.open_ c.close - c.low > 1.8 * |c.close - c.open_| ∧
      c.high - max c.open_ c.close < 0.6 * |c.close - c.open_|) ∧
    (is_shooting_star_candle c = true ↔
      |c.close - c.open_| ≠ 0 ∧
      c.high - max c.open_ c.close > 1.8 * |c.close - c.open_| ∧
      min c.open_ c.close - c.low < 0.6 * |c.close - c.open_|) ∧
    (|c.close - c.open_| = 0 →
      is_hammer_candle c = false ∧ is_shooting_star_candle c = false) := by
  by_cases hb : |c.close - c.open_| = 0 <;>
    simp [is_hammer_candle, is_shooting_star_candle, hb, Bool.and_eq_true,
      decide_eq_true_eq, mul_comm]

/-- Witness for C5 at the concrete candle
`open=100, high=100.5, low=90, close=99` (body 1, lower shadow 9, upper
shadow 0.5): the instantiated conclusion of `pattern_shape_spec`. -/
theorem pattern_shape_spec_witness :
    (is_hammer_candle ⟨100, 100.5, 90, 99, 5⟩ = true ↔
      |(99 : ℚ) - 100| ≠ 0 ∧
      min (100 : ℚ) 99 - 90 > 1.8 * |(99 : ℚ) - 100| ∧
      (100.5 : ℚ) - max 100 99 < 0.6 * |(99 : ℚ) - 100|) ∧
    (is_shooting_star_candle ⟨100, 100.5, 90, 99, 5⟩ = true ↔
      |(99 : ℚ) - 100| ≠ 0 ∧
      (100.5 : ℚ) - max 100 99 > 1.8 * |(99 : ℚ) - 100| ∧
      min (100 : ℚ) 99 - 90 < 0.6 * |(99 : ℚ) - 100|) ∧
    (|(99 : ℚ) - 100| = 0 →
      is_hammer_candle ⟨100, 100.5, 90, 99, 5⟩ = false ∧
      is_shooting_star_candle ⟨100, 100.5, 90, 99, 5⟩ = false) :=
  pattern_shape_spec ⟨100, 100.5, 90, 99, 5⟩
    (by with_unfolding_all decide) (by with_unfolding_all decide)

/-- C6: the hammer and shooting-star classifiers are mutually exclusive
on every single candle, and consequently `analyze_pair` emits at most
one signal per candle series per cycle. -/
theorem hammer_star_mutually_exclusive :
    (∀ c : Candle, ¬(is_hammer_candle c = true ∧ is_shooting_star_candle c = true)) ∧
    (∀ fetched : Option (List Candle), (analyze_pair fetched).length ≤ 1) := by
  refine ⟨hammer_star_exclusive_aux, ?_⟩
  rintro (_ | df)
  · simp [analyze_pair]
  · by_cases hlen : df.length < 6
    · simp [analyze_pair, hlen]
    · by_cases hh : is_hammer_candle (pattern_candle df) = true
      · have hs : ¬ is_shooting_star_candle (pattern_candle df) = true :=
          fun hs => hammer_star_exclusive_aux _ ⟨hh, hs⟩
        simp only [analyze_pair, if_neg hlen, if_pos hh, if_neg hs, List.append_nil]
        split <;> simp
      · simp only [analyze_pair, if_neg hlen, if_neg hh, List.nil_append]
        split
        · split <;> simp
        · simp

/-- C8: for every wall-clock second count `t`, the boundary computation
returns `s < 900` with `(t + s)` a multiple of `900`, and the end-of-cycle
sleep is that duration (replaced by a full 900-second interval when it is
zero) plus the one-second settle delay. -/
theorem scheduler_alignment_spec : ∀ t : ℕ,
    seconds_to_next_15min t < 900 ∧
    (t + seconds_to_next_15min t) % 900 = 0 ∧
    cycle_sleep t =
      (if seconds_to_next_15min t = 0 then 900 else seconds_to_next_15min t) + 1 := by
  intro t
  by_cases hr : t % (15 * 60) = 0 <;>
    simp [seconds_to_next_15min, cycle_sleep, hr] <;> omega

/-- C9: when the candle fetch raises (`none`) or the fetched series is
shorter than the trend window plus pattern candle (6) or the RSI warm-up
at the evaluated index (16), `analyze_pair` returns the empty signal
list instead of failing. -/
theorem fetch_failure_insufficient_history_skip :
    analyze_pair none = [] ∧
    ∀ df : List Candle, df.length < 16 → analyze_pair (some df) = [] := by
  refine ⟨rfl, fun df h => ?_⟩
  by_cases h6 : df.length < 6
  · simp [analyze_pair, h6]
  · have hrsi : rsi_val df = none := by
      have hcond : ¬ (RSI_PERIOD ≤ df.length - 2 ∧
          df.length - 2 < (df.map Candle.close).length) := by
        simp only [RSI_PERIOD, List.length_map, not_and]
        omega
      unfold rsi_val compute_rsi gain_avg
      rw [if_neg hcond]
    have hrh : rsi_ok_hammer df = false := by simp [rsi_ok_hammer, hrsi]
    have hrs : rsi_ok_star df = false := by simp [rsi_ok_star, hrsi]
    simp [analyze_pair, h6, hrh, hrs]

/-- Witness for C9: a 6-candle series (too short for the RSI warm-up)
produces no signal. -/
theorem fetch_failure_insufficient_history_skip_witness :
    analyze_pair (some (List.replicate 6 (⟨1, 1, 1, 1, 1⟩ : Candle))) = [] :=
  fetch_failure_insufficient_history_skip.2 _ (by decide)

/-- C3 (amended): every RSI value the code produces is in `[0,100]`;
when the rolling loss-average is zero and the gain-average is nonzero
the RSI saturates at `100` without dividing by zero; but when both
rolling averages are zero (constant prices) the float code computes
`0/0 = NaN` and the RSI is undefined rather than `100`. -/
theorem compute_rsi_range_and_saturation :
    (∀ (s : List ℚ) (period i : ℕ) (v : ℚ),
       compute_rsi s period i = some v → 0 ≤ v ∧ v ≤ 100) ∧
    (∀ (s : List ℚ) (period i : ℕ) (u : ℚ),
       loss_avg s period i = some 0 → gain_avg s period i = some u → u ≠ 0 →
       compute_rsi s period i = some 100) ∧
    (∀ (s : List ℚ) (period i : ℕ),
       loss_avg s period i = some 0 → gain_avg s period i = some 0 →
       compute_rsi s period i = none) := by
  refine ⟨?_, ?_, ?_⟩
  · intro s period i v h
    unfold compute_rsi at h
    rcases hg : gain_avg s period i with _ | u
    · simp only [hg] at h; cases h
    rcases hl : loss_avg s period i with _ | d
    · simp only [hg, hl] at h; cases h
    simp only [hg, hl] at h
    have hu : 0 ≤ u := gain_avg_nonneg s period i u hg
    have hd : 0 ≤ d := loss_avg_nonneg s period i d hl
    by_cases hd0 : d = 0
    · rw [if_pos hd0] at h
      by_cases hu0 : u = 0
      · rw [if_pos hu0] at h
        exact absurd h (by simp)
      · rw [if_neg hu0] at h
        obtain rfl := Option.some.inj h
        norm_num
    · rw [if_neg hd0] at h
      obtain rfl := Option.some.inj h
      have hdpos : 0 < d := lt_of_le_of_ne hd (Ne.symm hd0)
      have hr : 0 ≤ u / d := div_nonneg hu hd
      have h1 : (1 : ℚ) ≤ 1 + u / d := by linarith
      have h2 : (0 : ℚ) < 100 / (1 + u / d) := div_pos (by norm_num) (by linarith)
      have h3 : 100 / (1 + u / d) ≤ 100 := div_le_self (by norm_num) h1
      constructor <;> linarith
  · intro s period i u hl hg hu0
    unfold compute_rsi
    simp only [hg, hl]
    simp [hu0]
  · intro s period i hl hg
    unfold compute_rsi
    simp only [hg, hl]
    simp

/-- Counterexample for C3 as stated: on a constant 15-sample price
series the rolling loss-average after warm-up is a defined zero, yet
the RSI is NaN (`none`), not `100` and not a value in `[0,100]`. -/
theorem compute_rsi_nan_on_constant_series :
    loss_avg (List.replicate 15 (1 : ℚ)) 14 14 = some 0 ∧
    gain_avg (List.replicate 15 (1 : ℚ)) 14 14 = some 0 ∧
    compute_rsi (List.replicate 15 (1 : ℚ)) 14 14 = none := by
  refine ⟨?_, ?_, ?_⟩ <;> with_unfolding_all decide

/-- Witness for C3: a defined RSI value (an alternating series gives
exactly `50`) is bounded, and a strictly rising series saturates at
`100`. -/
theorem compute_rsi_range_and_saturation_witness :
    compute_rsi [1, 2, 1, 2, 1, 2, 1, 2, 1, 2, 1, 2, 1, 2, 1] 14 14 = some 50 ∧
    (0 ≤ (50 : ℚ) ∧ (50 : ℚ) ≤ 100) ∧
    compute_rsi ((List.range 15).map (fun n => (n : ℚ))) 14 14 = some 100 :=
  ⟨by with_unfolding_all decide,
   compute_rsi_range_and_saturation.1 [1, 2, 1, 2, 1, 2, 1, 2, 1, 2, 1, 2, 1, 2, 1]
     14 14 50 (by with_unfolding_all decide),
   compute_rsi_range_and_saturation.2.1 ((List.range 15).map (fun n => (n : ℚ)))
     14 14 1 (by with_unfolding_all decide) (by with_unfolding_all decide) (by norm_num)⟩

/-- C4: `trend_confirmation` in direction `"down"` succeeds iff at least
`required_count` of the window's candles are bearish and the window's
last close is strictly below its first close; `"up"` is symmetric; and
the window the evaluator passes is exactly the 5 candles immediately
preceding the pattern candle, never including it. -/
theorem trend_confirmation_spec :
    (∀ (candles : List Candle) (cfirst clast : Candle) (r : ℕ),
       candles.head? = some cfirst → candles.getLast? = some clast →
       ((trend_confirmation candles "down" r = some true ↔
          r ≤ (candles.filter (fun c => c.close < c.open_)).length ∧
          clast.close < cfirst.close) ∧
        (trend_confirmation candles "up" r = some true ↔
          r ≤ (candles.filter (fun c => c.close > c.open_)).length ∧
          clast.close > cfirst.close))) ∧
    (∀ df : List Candle, 6 ≤ df.length →
       trend_candles df ++ [pattern_candle df] = df.drop (df.length - 6) ∧
       (trend_candles df).length = 5) := by
  constructor
  · intro candles cfirst clast r h1 h2
    constructor
    · unfold trend_confirmation
      simp only [h1, h2, if_pos rfl]
      simp [Bool.and_eq_true, decide_eq_true_eq, ge_iff_le]
    · unfold trend_confirmation
      simp only [h1, h2]
      rw [if_neg (by decide : ¬("up" : String) = "down")]
      simp [Bool.and_eq_true, decide_eq_true_eq, ge_iff_le]
  · intro df h
    have hk : (df.drop (df.length - 6)).length = 6 := by
      rw [List.length_drop]; omega
    have hne : df.drop (df.length - 6) ≠ [] := by
      intro he; rw [he] at hk; simp at hk
    have hpc : pattern_candle df = (df.drop (df.length - 6)).getLast hne := by
      rw [pattern_candle, ← getLast?_drop_of_lt df (df.length - 6) (by omega),
        List.getLast?_eq_getLast_of_ne_nil hne, Option.getD_some]
    constructor
    · have htake : trend_candles df = (df.drop (df.length - 6)).dropLast := by
        rw [trend_candles, List.dropLast_eq_take, hk]
      rw [htake, hpc, List.dropLast_append_getLast hne]
    · exact trend_candles_length df h

/-- Witness for C4: a concrete 2-candle down window (both bearish, net
decline) and a concrete 6-candle series for the window split. -/
theorem trend_confirmation_spec_witness :
    ((trend_confirmation [⟨2, 2, 1, 1, 1⟩, ⟨1, 1, 0, 0, 1⟩] "down" 2 = some true ↔
        2 ≤ (([⟨2, 2, 1, 1, 1⟩, ⟨1, 1, 0, 0, 1⟩] : List Candle).filter
          (fun c => c.close < c.open_)).length ∧
        (⟨1, 1, 0, 0, 1⟩ : Candle).close < (⟨2, 2, 1, 1, 1⟩ : Candle).close) ∧
      (trend_confirmation [⟨2, 2, 1, 1, 1⟩, ⟨1, 1, 0, 0, 1⟩] "up" 2 = some true ↔
        2 ≤ (([⟨2, 2, 1, 1, 1⟩, ⟨1, 1, 0, 0, 1⟩] : List Candle).filter
          (fun c => c.close > c.open_)).length ∧
        (⟨1, 1, 0, 0, 1⟩ : Candle).close > (⟨2, 2, 1, 1, 1⟩ : Candle).close)) ∧
    (trend_candles (List.replicate 6 (⟨1, 1, 1, 1, 1⟩ : Candle)) ++
        [pattern_candle (List.replicate 6 (⟨1, 1, 1, 1, 1⟩ : Candle))] =
      (List.replicate 6 (⟨1, 1, 1, 1, 1⟩ : Candle)).drop
        ((List.replicate 6 (⟨1, 1, 1, 1, 1⟩ : Candle)).length - 6) ∧
      (trend_candles (List.replicate 6 (⟨1, 1, 1, 1, 1⟩ : Candle))).length = 5) :=
  ⟨trend_confirmation_spec.1 [⟨2, 2, 1, 1, 1⟩, ⟨1, 1, 0, 0, 1⟩]
      ⟨2, 2, 1, 1, 1⟩ ⟨1, 1, 0, 0, 1⟩ 2 rfl rfl,
   trend_confirmation_spec.2 (List.replicate 6 (⟨1, 1, 1, 1, 1⟩ : Candle)) (by decide)⟩

/-- C7: the volume filter passes iff the pattern candle's volume is at
least `0.9` times the average volume over the trailing reference window
(the trailing 20 candles when at least 20 exist, else the whole
series), and the window used by the code has exactly that shape. -/
theorem volume_filter_spec : ∀ df : List Candle,
    (vol_ok df = true ↔
      (pattern_candle df).volume ≥
        0.9 * ((ref_window_spec df).sum / ((ref_window_spec df).length : ℚ))) ∧
    (ref_window_spec df).length = min 20 df.length ∧
    avg_vol df = (ref_window_spec df).sum / ((ref_window_spec df).length : ℚ) := by
  intro df
  refine ⟨?_, ?_, avg_vol_eq_ref_window df⟩
  · rw [vol_ok, last_vol, avg_vol_eq_ref_window df]
    simp [VOLUME_MULTIPLIER, decide_eq_true_eq, mul_comm]
  · by_cases h20 : 20 ≤ df.length <;>
      simp [ref_window_spec, h20, List.length_drop, List.length_map] <;> omega

/-- C10: the trailing average volume is computed over a window whose
last element is the pattern candle's own volume (the pattern candle is
included, the window is not restricted to strictly preceding candles). -/
theorem avg_vol_window_includes_pattern_candle (df : List Candle) (h : df ≠ []) :
    (ref_window_spec df).getLast? = some ((pattern_candle df).volume) ∧
    avg_vol df = (ref_window_spec df).sum / ((ref_window_spec df).length : ℚ) := by
  refine ⟨?_, avg_vol_eq_ref_window df⟩
  have hmap : (df.map Candle.volume).getLast? = some ((pattern_candle df).volume) := by
    rw [List.getLast?_map, pattern_candle,
      List.getLast?_eq_getLast_of_ne_nil h, Option.getD_some, Option.map_some']
  by_cases h20 : 20 ≤ df.length
  · rw [ref_window_spec, if_pos h20, getLast?_drop_of_lt _ _ ?_, hmap]
    rw [List.length_map]
    omega
  · rw [ref_window_spec, if_neg h20, hmap]

/-- Witness for C10 at a one-candle series. -/
theorem avg_vol_window_includes_pattern_candle_witness :
    (ref_window_spec [⟨1, 2, 0, 1, 7⟩]).getLast? =
      some ((pattern_candle [⟨1, 2, 0, 1, 7⟩]).volume) ∧
    avg_vol [⟨1, 2, 0, 1, 7⟩] =
      (ref_window_spec [⟨1, 2, 0, 1, 7⟩]).sum /
        ((ref_window_spec [⟨1, 2, 0, 1, 7⟩]).length : ℚ) :=
  avg_vol_window_includes_pattern_candle [⟨1, 2, 0, 1, 7⟩] (List.cons_ne_nil _ _)
